import Mathlib

/-!
# Shallow embedding of the Equinix Fabric MCP server (`server.py`)

This file embeds the authenticated-request pipeline of the server:
the OAuth2 token cache (`EquinixClient.get_access_token`), the payload
builders (`_build_connection_payload`, `_build_access_point`, the
connection-update patch list), the resource operations that the claims
mention (router lookup, the not-supported router/stat operations, the
list/search operations with their pagination), and the tool router
(`call_tool`).  JSON values are modelled by the inductive `JValue`;
Python dictionaries by association lists in insertion order; raised
exceptions by `Option`/`Except` results; and the network by an explicit
trace of actions together with an injected response.
-/

set_option autoImplicit false

/-- A JSON value, as produced by `json` payload literals in `server.py`.
Numbers are modelled as integers (every number the server manipulates is
an integer: offsets, limits, bandwidths, VLAN tags). -/
inductive JValue where
  | null
  | bool (b : Bool)
  | num (n : Int)
  | str (s : String)
  | arr (elems : List JValue)
  | obj (fields : List (String × JValue))
  deriving Repr

/-- A Python `dict` with string keys, in insertion order. -/
abbrev Dict := List (String × JValue)

/-- The lookup `dget d k` models `d[k]` / `d.get(k)` on a Python dict: the value at
key `k`, or `none` when the key is absent (Python raises `KeyError` for
`d[k]`, returns `None` for `d.get(k)`). -/
def dget : Dict → String → Option JValue
  | [], _ => none
  | (k, v) :: rest, key => if k = key then some v else dget rest key

/-- The lookup `jGet j k` models `j.get(k)` when `j` is a JSON object; on a
non-object it yields `none`. -/
def jGet (j : JValue) (key : String) : Option JValue :=
  match j with
  | .obj fields => dget fields key
  | _ => none

/-- The fields of a JSON object, or `none` for a non-object value. -/
def jAsObj : JValue → Option Dict
  | .obj fields => some fields
  | _ => none

/-! ## Token cache (`EquinixClient.get_access_token`, lines 25-54) -/

/-- The mutable token-cache state of `EquinixClient`: credentials plus
the cached `access_token` (`None` initially) and its `token_expiry`
(0 initially).  Time is modelled as an integer clock. -/
structure TokenState where
  client_id : String
  client_secret : String
  access_token : Option String
  token_expiry : Int
  deriving Repr

/-- The JSON body of the client-credentials grant request that
`get_access_token` posts to the OAuth endpoint. -/
structure TokenRequest where
  grant_type : String
  client_id : String
  client_secret : String
  deriving Repr

/-- The parsed body of a successful token-endpoint response:
`data["access_token"]` and the optional `expires_in` field read by
`data.get("expires_in", 3600)`. -/
structure TokenResponse where
  access_token : String
  expires_in : Option Int
  deriving Repr

/-- Result of one `get_access_token` call: the returned token, the
updated cache state, and the grant request issued on the network
(`none` when the cached token was reused without any network call). -/
structure GetTokenResult where
  token : String
  state : TokenState
  request : Option TokenRequest
  deriving Repr

/-- Python truthiness of `self.access_token` in the guard
`if self.access_token and time.time() < self.token_expiry`: an unset
(`None`) or empty-string token is falsy. -/
def tokenTruthy : Option String → Bool
  | none => false
  | some t => t != ""

/-- Model of `EquinixClient.get_access_token`, with the wall clock `now` and the
(successful) token-endpoint response body injected as parameters.  If a
truthy cached token exists and `now < token_expiry` it is returned with
no network request; otherwise the client-credentials grant is posted,
the new token is cached, and the expiry is set to one minute before the
reported expiration: `now + expires_in (default 3600) - 60`. -/
def get_access_token (st : TokenState) (now : Int) (resp : TokenResponse) :
    GetTokenResult :=
  if tokenTruthy st.access_token && decide (now < st.token_expiry) then
    { token := st.access_token.getD "", state := st, request := none }
  else
    { token := resp.access_token
      state := { st with
        access_token := some resp.access_token
        token_expiry := now + resp.expires_in.getD 3600 - 60 }
      request := some
        { grant_type := "client_credentials"
          client_id := st.client_id
          client_secret := st.client_secret } }

/-! ## Access-point builder (`EquinixClient._build_access_point`, lines 387-426) -/

/-- Python equality test `j == s` between a JSON value and a string
literal: true exactly when `j` is that string (values of other types
compare unequal to a string in Python). -/
def jEqStr (j : JValue) (s : String) : Bool :=
  match j with
  | .str t => t == s
  | _ => false

/-- Model of `EquinixClient._build_access_point`: dispatches on `side["type"]`
(`port` / `virtual_device` / `service_token` / `service_profile`);
`none` models a raised `KeyError` on a missing required key.  An
unrecognised `type` value falls through every branch and returns the
initial empty dict. -/
def build_access_point (side : Dict) : Option Dict := do
  let ty ← dget side "type"
  if jEqStr ty "port" then do
    let pu ← dget side "port_uuid"
    let base := [("type", JValue.str "COLO"), ("port", JValue.obj [("uuid", pu)])]
    match dget side "vlan" with
    | some v =>
        pure (base ++ [("linkProtocol",
          JValue.obj [("type", JValue.str "DOT1Q"), ("vlanTag", v)])])
    | none =>
        pure (base ++ [("linkProtocol", JValue.obj [("type", JValue.str "UNTAGGED")])])
  else if jEqStr ty "virtual_device" then do
    let vu ← dget side "virtual_device_uuid"
    let base := [("type", JValue.str "VD"), ("virtualDevice", JValue.obj [("uuid", vu)])]
    match dget side "vlan" with
    | some v =>
        pure (base ++ [("interface",
          JValue.obj [("type", JValue.str "NETWORK"), ("vlanTag", v)])])
    | none => pure base
  else if jEqStr ty "service_token" then do
    let su ← dget side "service_token_uuid"
    pure [("type", JValue.str "SERVICE_TOKEN"), ("serviceToken", JValue.obj [("uuid", su)])]
  else if jEqStr ty "service_profile" then do
    let su ← dget side "service_profile_uuid"
    let base := [("type", JValue.str "SP"),
      ("profile", JValue.obj [("uuid", su), ("type", JValue.str "L2_PROFILE")])]
    match dget side "seller_metro_code" with
    | some m => pure (base ++ [("location", JValue.obj [("metroCode", m)])])
    | none => pure base
  else
    pure []

/-! ## Connection payload (`EquinixClient._build_connection_payload`, lines 357-385) -/

/-- Model of `EquinixClient._build_connection_payload`: the required fields
`type`, `name`, `bandwidth`, `aSide`, `zSide` (the two sides built via
`_build_access_point`), then each optional field appended only when the
corresponding input key is present.  `none` models a raised `KeyError`
on a missing required key. -/
def build_connection_payload (data : Dict) : Option Dict := do
  let ty ← dget data "type"
  let nm ← dget data "name"
  let bw ← dget data "bandwidth"
  let av ← dget data "a_side"
  let aF ← jAsObj av
  let ap_a ← build_access_point aF
  let zv ← dget data "z_side"
  let zF ← jAsObj zv
  let ap_z ← build_access_point zF
  let payload := [("type", ty), ("name", nm), ("bandwidth", bw),
    ("aSide", JValue.obj [("accessPoint", JValue.obj ap_a)]),
    ("zSide", JValue.obj [("accessPoint", JValue.obj ap_z)])]
  let payload := match dget data "description" with
    | some d => payload ++ [("description", d)]
    | none => payload
  let payload := match dget data "notifications" with
    | some n => payload ++ [("notifications",
        JValue.arr [JValue.obj [("type", JValue.str "ALL"), ("emails", n)]])]
    | none => payload
  let payload := match dget data "redundancy" with
    | some r => payload ++ [("redundancy", r)]
    | none => payload
  let payload := match dget data "project_id" with
    | some pid => payload ++ [("project", JValue.obj [("projectId", pid)])]
    | none => payload
  pure payload

/-! ## Update patch (`EquinixClient.update_connection`, lines 187-223) -/

/-- One `{op: replace, path, value}` JSON-patch entry. -/
def replaceOp (path : String) (v : JValue) : JValue :=
  .obj [("op", .str "replace"), ("path", .str path), ("value", v)]

/-- The patch list built by `EquinixClient.update_connection`: one
replace op per updatable field present in `update_data`, appended in
the fixed source order name, description, bandwidth, notifications
(the notifications value is wrapped as a one-element list). -/
def update_connection_payload (update_data : Dict) : List JValue :=
  (match dget update_data "name" with
    | some v => [replaceOp "/name" v]
    | none => [])
  ++ (match dget update_data "description" with
    | some v => [replaceOp "/description" v]
    | none => [])
  ++ (match dget update_data "bandwidth" with
    | some v => [replaceOp "/bandwidth" v]
    | none => [])
  ++ (match dget update_data "notifications" with
    | some v => [replaceOp "/notifications"
        (.arr [.obj [("type", .str "ALL"), ("emails", v)]])]
    | none => [])

/-- The four updatable fields with their patch paths, in the fixed
order the source tests them. -/
def updatableFields : List (String × String) :=
  [("name", "/name"), ("description", "/description"),
   ("bandwidth", "/bandwidth"), ("notifications", "/notifications")]

/-- The patch value for an updatable field: the input value, except
that `notifications` is wrapped as `[{type: ALL, emails: value}]`. -/
def updatePatchValue (field : String) (v : JValue) : JValue :=
  if field = "notifications" then
    .arr [.obj [("type", .str "ALL"), ("emails", v)]]
  else v

/-! ## Request dispatch and the network trace (`EquinixClient.make_request`) -/

/-- One observable network side effect of the client: the token
resolution performed at the start of `make_request` (the call to
`get_access_token`), or one outbound HTTP request. -/
inductive ApiAction where
  | getToken
  | httpRequest (method : String) (endpoint : String) (body : Option JValue)
  deriving Repr

/-- The exceptions raised by the client and surfaced to the tool
router: `NotImplementedError`, `ValueError`, `httpx.HTTPStatusError`
(status code and raw response body), and connection-level
`httpx.TransportError`s. -/
inductive FabricError where
  | notImplemented (msg : String)
  | valueError (msg : String)
  | httpStatus (status : Nat) (body : String)
  | transport (msg : String)
  deriving Repr

/-- A permanent "not supported" signal (`NotImplementedError`). -/
def FabricError.isNotSupported : FabricError → Bool
  | .notImplemented _ => true
  | _ => false

/-- A transient failure: a non-2xx HTTP status or a connection-level
transport error, which a caller might retry. -/
def FabricError.isTransient : FabricError → Bool
  | .httpStatus _ _ => true
  | .transport _ => true
  | _ => false

/-- The run of one resource operation: the network actions it performs,
in order, and its outcome (`Except` models a raised exception). -/
structure OpRun (α : Type) where
  trace : List ApiAction
  result : Except FabricError α

/-- The wire outcome of one HTTP exchange, injected as a parameter: the
parsed JSON body of a 2xx response, or the status/body pair on which
`response.raise_for_status()` raises. -/
abbrev HttpOutcome := Except (Nat × String) JValue

/-- Model of `EquinixClient.make_request`: resolves a bearer token via
`get_access_token`, issues the request, raises `HTTPStatusError` on a
non-2xx response and otherwise returns the parsed JSON body. -/
def make_request (method endpoint : String) (body : Option JValue)
    (resp : HttpOutcome) : OpRun JValue :=
  { trace := [.getToken, .httpRequest method endpoint body]
    result := match resp with
      | .ok j => .ok j
      | .error (s, b) => .error (.httpStatus s b) }

/-! ## Router operations (lines 123-154 and 243-262) -/

/-- The search body posted by `EquinixClient.get_router`: an equality
filter on `/uuid` for the requested id, pagination offset 0, limit 1. -/
def routerSearchBody (router_id : String) : JValue :=
  .obj [("filter", .obj [("property", .str "/uuid"), ("operator", .str "="),
          ("values", .arr [.str router_id])]),
        ("pagination", .obj [("offset", .num 0), ("limit", .num 1)])]

/-- Model of `EquinixClient.get_router`: one `POST /fabric/v4/routers/search`
request with `routerSearchBody`; returns the first element when the
response's `data` list is non-empty (`result.get("data") and
len(result["data"]) > 0`), otherwise raises
`ValueError(f"Cloud Router with ID ... not found")`.  Responses are the
endpoint's JSON objects, with `data` the result list. -/
def get_router (router_id : String) (resp : HttpOutcome) : OpRun JValue :=
  let r := make_request "POST" "/fabric/v4/routers/search"
    (some (routerSearchBody router_id)) resp
  { trace := r.trace
    result := match r.result with
      | .error e => .error e
      | .ok result =>
        match jGet result "data" with
        | some (.arr (x :: _)) => .ok x
        | _ => .error (.valueError
            ("Cloud Router with ID " ++ router_id ++ " not found")) }

/-- The `NotImplementedError` message of the three unsupported router
write operations (two adjacent Python string literals, concatenated). -/
def routerNotSupportedMsg : String :=
  "Cloud Routers are not available in Fabric v4 API. " ++
  "Use Fabric connections and service profiles instead."

/-- Model of `EquinixClient.create_router`: raises `NotImplementedError`
immediately; nothing reaches the network. -/
def create_router (router_data : Dict) : OpRun JValue :=
  { trace := [], result := .error (.notImplemented routerNotSupportedMsg) }

/-- Model of `EquinixClient.update_router`: raises `NotImplementedError`
immediately; nothing reaches the network. -/
def update_router (router_id : String) (update_data : Dict) : OpRun JValue :=
  { trace := [], result := .error (.notImplemented routerNotSupportedMsg) }

/-- Model of `EquinixClient.delete_router`: raises `NotImplementedError`
immediately; nothing reaches the network. -/
def delete_router (router_id : String) : OpRun JValue :=
  { trace := [], result := .error (.notImplemented routerNotSupportedMsg) }

/-- The `NotImplementedError` message of
`EquinixClient.get_connection_stats`. -/
def statsNotSupportedMsg : String :=
  "Connection stats endpoint is not available in Fabric v4. " ++
  "Use GET /fabric/v4/connections/\x7buuid\x7d or search endpoints instead."

/-- Model of `EquinixClient.get_connection_stats` (lines 103-121): raises
`NotImplementedError` immediately; nothing reaches the network. -/
def get_connection_stats (connection_id : String)
    (from_ts to_ts interval startTime endTime timeGranularity :
      Option String) : OpRun JValue :=
  { trace := [], result := .error (.notImplemented statsNotSupportedMsg) }

/-- The `NotImplementedError` message raised directly by the
`get_connection_stats` branch of `call_tool` (lines 1047-1052). -/
def statsToolNotSupportedMsg : String :=
  "get_connection_stats is not supported: Fabric v4 does not provide " ++
  "/connections/\x7buuid\x7d/stats. Use get_fabric_connection or search endpoints."

/-- The `get_connection_stats` branch of `call_tool`: raises
`NotImplementedError` without calling the client at all. -/
def get_connection_stats_tool (args : Dict) : OpRun JValue :=
  { trace := [], result := .error (.notImplemented statsToolNotSupportedMsg) }

/-! ## List/search operations and their pagination -/

/-- The `{"filter": {}, "pagination": {offset, limit}}` body shared by
`list_connections` and `list_routers`. -/
def paginationBody (offset limit : Int) : JValue :=
  .obj [("filter", .obj []),
        ("pagination", .obj [("offset", .num offset), ("limit", .num limit)])]

/-- Model of `EquinixClient.list_ports`: `GET /fabric/v4/ports` with `offset`
and `limit` interpolated into the query string. -/
def list_ports (offset limit : Int) (resp : HttpOutcome) : OpRun JValue :=
  make_request "GET"
    ("/fabric/v4/ports?offset=" ++ toString offset ++
      "&limit=" ++ toString limit) none resp

/-- Model of `EquinixClient.list_connections`: connection search with an empty
filter and explicit pagination. -/
def list_connections (offset limit : Int) (resp : HttpOutcome) : OpRun JValue :=
  make_request "POST" "/fabric/v4/connections/search"
    (some (paginationBody offset limit)) resp

/-- Model of `EquinixClient.list_routers`: router search with an empty filter
and explicit pagination. -/
def list_routers (offset limit : Int) (resp : HttpOutcome) : OpRun JValue :=
  make_request "POST" "/fabric/v4/routers/search"
    (some (paginationBody offset limit)) resp

/-- Model of `EquinixClient.list_service_tokens`: `GET /fabric/v4/serviceTokens`
with `offset` and `limit` interpolated into the query string. -/
def list_service_tokens (offset limit : Int) (resp : HttpOutcome) :
    OpRun JValue :=
  make_request "GET"
    ("/fabric/v4/serviceTokens?offset=" ++ toString offset ++
      "&limit=" ++ toString limit) none resp

/-- Python truthiness of an optional string filter argument: `None` and
`""` are falsy. -/
def strTruthy : Option String → Bool
  | none => false
  | some s => s != ""

/-- The query string built by `EquinixClient.list_service_profiles`
(lines 266-287): pagination first, then one `filter[...]` parameter per
truthy optional filter (`if metro_code:` etc., so an empty string adds
no parameter). -/
def list_service_profiles_params (offset limit : Int)
    (metro_code service_type name : Option String) : String :=
  let params := "offset=" ++ toString offset ++ "&limit=" ++ toString limit
  let params := if strTruthy metro_code then
      params ++ "&filter[metroCode]=" ++ metro_code.getD "" else params
  let params := if strTruthy service_type then
      params ++ "&filter[type]=" ++ service_type.getD "" else params
  let params := if strTruthy name then
      params ++ "&filter[name]=" ++ name.getD "" else params
  params

/-- Model of `EquinixClient.list_service_profiles`: `GET
/fabric/v4/serviceProfiles` with the query string above. -/
def list_service_profiles (offset limit : Int)
    (metro_code service_type name : Option String) (resp : HttpOutcome) :
    OpRun JValue :=
  make_request "GET"
    ("/fabric/v4/serviceProfiles?" ++
      list_service_profiles_params offset limit metro_code service_type name)
    none resp

/-- Model of `EquinixClient.search_connections`: posts a caller-provided query
to `/fabric/v4/connections/search`. -/
def search_connections (query : JValue) (resp : HttpOutcome) : OpRun JValue :=
  make_request "POST" "/fabric/v4/connections/search" (some query) resp

/-! ## Tool-router argument handling (`call_tool`, lines 1025-1135) -/

/-- Model of `arguments.get(key, default)` for the integer-valued pagination
arguments (the tool schemas declare `offset` and `limit` as numbers). -/
def arg_int (args : Dict) (key : String) (default : Int) : Int :=
  match dget args key with
  | some (.num n) => n
  | _ => default

/-- Model of `arguments.get(key)` for the string-valued optional filter
arguments (absent keys become Python `None`). -/
def arg_str_opt (args : Dict) (key : String) : Option String :=
  match dget args key with
  | some (.str s) => some s
  | _ => none

/-- The `list_fabric_ports` branch of `call_tool`: defaults offset to 0
and limit to 20 before calling `list_ports`. -/
def list_fabric_ports_tool (args : Dict) (resp : HttpOutcome) : OpRun JValue :=
  list_ports (arg_int args "offset" 0) (arg_int args "limit" 20) resp

/-- The `list_fabric_connections` branch of `call_tool`. -/
def list_fabric_connections_tool (args : Dict) (resp : HttpOutcome) :
    OpRun JValue :=
  list_connections (arg_int args "offset" 0) (arg_int args "limit" 20) resp

/-- The `list_fabric_routers` branch of `call_tool`. -/
def list_fabric_routers_tool (args : Dict) (resp : HttpOutcome) : OpRun JValue :=
  list_routers (arg_int args "offset" 0) (arg_int args "limit" 20) resp

/-- The `list_service_tokens` branch of `call_tool`. -/
def list_service_tokens_tool (args : Dict) (resp : HttpOutcome) : OpRun JValue :=
  list_service_tokens (arg_int args "offset" 0) (arg_int args "limit" 20) resp

/-- The `list_service_profiles` branch of `call_tool`. -/
def list_service_profiles_tool (args : Dict) (resp : HttpOutcome) :
    OpRun JValue :=
  list_service_profiles (arg_int args "offset" 0) (arg_int args "limit" 20)
    (arg_str_opt args "metro_code") (arg_str_opt args "service_type")
    (arg_str_opt args "name") resp

/-- The query built by the `search_connections` branch of `call_tool`
(lines 1060-1071): `name`/`state` are copied into the filter and
`offset`/`limit` into the pagination only when present in the
arguments — no defaults are inserted for absent keys. -/
def search_connections_filter_query (args : Dict) : JValue :=
  .obj [("filter", .obj (
      (match dget args "name" with | some v => [("name", v)] | none => []) ++
      (match dget args "state" with | some v => [("state", v)] | none => []))),
    ("pagination", .obj (
      (match dget args "offset" with | some v => [("offset", v)] | none => []) ++
      (match dget args "limit" with | some v => [("limit", v)] | none => [])))]

/-- The `search_connections` branch of `call_tool`. -/
def search_connections_tool (args : Dict) (resp : HttpOutcome) : OpRun JValue :=
  search_connections (search_connections_filter_query args) resp

/-! ## JSON serialization (`json.dumps(result, indent=2)`) -/

/-- Lowercase hexadecimal digit. -/
def hexDigit (n : Nat) : Char :=
  if n < 10 then Char.ofNat (48 + n) else Char.ofNat (87 + n)

/-- Four lowercase hex digits, as in a JSON `\uXXXX` escape. -/
def hex4 (n : Nat) : String :=
  String.mk [hexDigit (n / 4096 % 16), hexDigit (n / 256 % 16),
    hexDigit (n / 16 % 16), hexDigit (n % 16)]

/-- The escape `json.dumps` (with its default `ensure_ascii=True`)
applies to one character of a string. -/
def jsonEscapeChar (c : Char) : String :=
  if c = '"' then "\\\""
  else if c = '\\' then "\\\\"
  else if c = '\n' then "\\n"
  else if c = '\t' then "\\t"
  else if c = '\r' then "\\r"
  else if c = '\x08' then "\\b"
  else if c = '\x0c' then "\\f"
  else if c.toNat ≥ 65536 then
    "\\u" ++ hex4 (55296 + (c.toNat - 65536) / 1024) ++
    "\\u" ++ hex4 (56320 + (c.toNat - 65536) % 1024)
  else if c.toNat < 32 || c.toNat ≥ 128 then "\\u" ++ hex4 c.toNat
  else String.singleton c

/-- A JSON string literal with its quotes and escapes. -/
def jsonQuote (s : String) : String :=
  "\"" ++ String.join (s.data.map jsonEscapeChar) ++ "\""

/-- A run of `n` spaces of indentation. -/
def jsonIndent (n : Nat) : String :=
  String.mk (List.replicate n ' ')

mutual

/-- Model of `json.dumps(j, indent=2)` rendered at nesting level `level`:
non-empty containers are spread over lines, each entry indented two
further spaces, with the closing bracket back at the opening level. -/
def jsonDumpsVal (level : Nat) : JValue → String
  | .null => "null"
  | .bool true => "true"
  | .bool false => "false"
  | .num n => toString n
  | .str s => jsonQuote s
  | .arr [] => "[]"
  | .arr (x :: xs) =>
      "[\n" ++ String.intercalate ",\n" (jsonDumpsItems (level + 2) (x :: xs)) ++
      "\n" ++ jsonIndent level ++ "]"
  | .obj [] => "\x7b\x7d"
  | .obj (f :: fs) =>
      "\x7b\n" ++ String.intercalate ",\n" (jsonDumpsFields (level + 2) (f :: fs)) ++
      "\n" ++ jsonIndent level ++ "\x7d"

/-- The rendered, indented elements of a JSON array. -/
def jsonDumpsItems (level : Nat) : List JValue → List String
  | [] => []
  | x :: xs => (jsonIndent level ++ jsonDumpsVal level x) :: jsonDumpsItems level xs

/-- The rendered, indented `"key": value` entries of a JSON object. -/
def jsonDumpsFields (level : Nat) : List (String × JValue) → List String
  | [] => []
  | (k, v) :: fs =>
      (jsonIndent level ++ jsonQuote k ++ ": " ++ jsonDumpsVal level v) ::
        jsonDumpsFields level fs

end

/-- Model of `json.dumps(result, indent=2)` as used on every successful tool
result (line 1125). -/
def json_dumps (j : JValue) : String :=
  jsonDumpsVal 0 j

/-! ## The tool router (`call_tool`, lines 1025-1135) -/

/-- One `TextContent` block of the tool-invocation protocol. -/
structure TextContent where
  type : String
  text : String
  deriving Repr

/-- What execution of a matched tool branch did: returned a result, or
raised (`httpx.HTTPStatusError` carrying the response's status code and
raw body text, or any other exception with its message `str(e)`). -/
inductive OpOutcome where
  | ok (result : JValue)
  | httpStatusError (status : Nat) (body : String)
  | exc (msg : String)
  deriving Repr

/-- The tool names `call_tool` dispatches on, in source order. -/
def knownToolNames : List String :=
  ["list_fabric_ports", "get_fabric_port", "list_fabric_connections",
   "get_fabric_connection", "get_connection_stats", "list_fabric_routers",
   "get_fabric_router", "search_connections", "list_metros",
   "create_fabric_connection", "update_connection", "delete_connection",
   "validate_connection_config", "create_fabric_router",
   "update_fabric_router", "delete_fabric_router", "list_service_profiles",
   "get_service_profile", "create_service_token", "list_service_tokens",
   "get_service_token", "delete_service_token"]

/-- The routing and error-translation skeleton of `call_tool`: a name
matching no branch returns the literal `Unknown tool: <name>` text (the
`else` at line 1120, inside the `try`, so no exception escapes); a
matched branch's raised `HTTPStatusError` is rendered as
`Error calling <name>: HTTP Error <status>: <body>`, any other raised
exception as `Error calling <name>: <message>`, and a returned result
as `json.dumps(result, indent=2)`. -/
def call_tool (name : String) (outcome : OpOutcome) : List TextContent :=
  if knownToolNames.contains name then
    match outcome with
    | .ok r => [{ type := "text", text := json_dumps r }]
    | .httpStatusError s b =>
        [{ type := "text",
           text := "Error calling " ++ name ++ ": " ++
             ("HTTP Error " ++ toString s ++ ": " ++ b) }]
    | .exc m =>
        [{ type := "text", text := "Error calling " ++ name ++ ": " ++ m }]
  else
    [{ type := "text", text := "Unknown tool: " ++ name }]

/-! ## Theorems -/

/-- C1: for every call to `get_access_token`: when a (truthy) cached
token exists and the current time is strictly below the stored expiry,
that cached token is returned, the state is unchanged and no network
request is issued; otherwise a client-credentials grant request is
issued and, on success, the response token is returned and stored with
expiry `now + expires_in (default 3600) - 60`. -/
theorem get_access_token_cache_spec
    (st : TokenState) (now : Int) (resp : TokenResponse) :
    (∀ t, st.access_token = some t → t ≠ "" → now < st.token_expiry →
      get_access_token st now resp =
        { token := t, state := st, request := none }) ∧
    ((tokenTruthy st.access_token && decide (now < st.token_expiry)) = false →
      get_access_token st now resp =
        { token := resp.access_token
          state := { st with
            access_token := some resp.access_token
            token_expiry := now + resp.expires_in.getD 3600 - 60 }
          request := some
            { grant_type := "client_credentials"
              client_id := st.client_id
              client_secret := st.client_secret } }) := by
  constructor
  · intro t ht hne hlt
    simp [get_access_token, ht, tokenTruthy, hne, hlt]
  · intro hfalse
    simp [get_access_token, hfalse]

/-- Witness for C1 at concrete inputs: a valid cached token is reused
without a network call, and an expired cache triggers a refresh whose
stored expiry is `now + 3600 - 60` when `expires_in` is absent. -/
theorem get_access_token_cache_spec_witness :
    (get_access_token
        { client_id := "id", client_secret := "sec",
          access_token := some "tok", token_expiry := 100 }
        50 { access_token := "new", expires_in := none } =
      { token := "tok",
        state := { client_id := "id", client_secret := "sec",
                   access_token := some "tok", token_expiry := 100 },
        request := none }) ∧
    (get_access_token
        { client_id := "id", client_secret := "sec",
          access_token := some "tok", token_expiry := 100 }
        100 { access_token := "new", expires_in := none } =
      { token := "new",
        state := { client_id := "id", client_secret := "sec",
                   access_token := some "new", token_expiry := 100 + 3600 - 60 },
        request := some { grant_type := "client_credentials",
                          client_id := "id", client_secret := "sec" } }) := by
  refine ⟨?_, ?_⟩
  · exact (get_access_token_cache_spec
      { client_id := "id", client_secret := "sec",
        access_token := some "tok", token_expiry := 100 }
      50 { access_token := "new", expires_in := none }).1
      "tok" rfl (by decide) (by decide)
  · exact (get_access_token_cache_spec
      { client_id := "id", client_secret := "sec",
        access_token := some "tok", token_expiry := 100 }
      100 { access_token := "new", expires_in := none }).2 (by decide)

/-- C2: for each known descriptor kind, `build_access_point` produces
exactly the wire object of that kind and nothing from other kinds: a
`port` descriptor yields `type=COLO`, the port uuid, and a `DOT1Q`
link protocol with the vlan tag exactly when `vlan` is present
(`UNTAGGED` when absent, so a port without `vlan` never emits a tagged
link protocol); a `virtual_device` descriptor yields `type=VD`, the
device uuid, and a tagged `NETWORK` interface exactly when `vlan` is
present (no interface entry when absent); a `service_token` descriptor
yields `type=SERVICE_TOKEN` and the token uuid; a `service_profile`
descriptor yields `type=SP`, the `L2_PROFILE` profile, and a
`location` with the metro code exactly when `seller_metro_code` is
present. -/
theorem build_access_point_variants (side : Dict) :
    (∀ pu, dget side "type" = some (.str "port") →
        dget side "port_uuid" = some pu →
      (∀ v, dget side "vlan" = some v →
          build_access_point side = some [("type", .str "COLO"),
            ("port", .obj [("uuid", pu)]),
            ("linkProtocol", .obj [("type", .str "DOT1Q"), ("vlanTag", v)])]) ∧
      (dget side "vlan" = none →
          build_access_point side = some [("type", .str "COLO"),
            ("port", .obj [("uuid", pu)]),
            ("linkProtocol", .obj [("type", .str "UNTAGGED")])])) ∧
    (∀ vu, dget side "type" = some (.str "virtual_device") →
        dget side "virtual_device_uuid" = some vu →
      (∀ v, dget side "vlan" = some v →
          build_access_point side = some [("type", .str "VD"),
            ("virtualDevice", .obj [("uuid", vu)]),
            ("interface", .obj [("type", .str "NETWORK"), ("vlanTag", v)])]) ∧
      (dget side "vlan" = none →
          build_access_point side = some [("type", .str "VD"),
            ("virtualDevice", .obj [("uuid", vu)])])) ∧
    (∀ su, dget side "type" = some (.str "service_token") →
        dget side "service_token_uuid" = some su →
        build_access_point side = some [("type", .str "SERVICE_TOKEN"),
          ("serviceToken", .obj [("uuid", su)])]) ∧
    (∀ su, dget side "type" = some (.str "service_profile") →
        dget side "service_profile_uuid" = some su →
      (∀ m, dget side "seller_metro_code" = some m →
          build_access_point side = some [("type", .str "SP"),
            ("profile", .obj [("uuid", su), ("type", .str "L2_PROFILE")]),
            ("location", .obj [("metroCode", m)])]) ∧
      (dget side "seller_metro_code" = none →
          build_access_point side = some [("type", .str "SP"),
            ("profile", .obj [("uuid", su), ("type", .str "L2_PROFILE")])])) := by
  refine ⟨?_, ?_, ?_, ?_⟩
  · intro pu ht hp
    exact ⟨fun v hv => by simp [build_access_point, ht, hp, hv, jEqStr],
           fun hv => by simp [build_access_point, ht, hp, hv, jEqStr]⟩
  · intro vu ht hp
    exact ⟨fun v hv => by simp [build_access_point, ht, hp, hv, jEqStr],
           fun hv => by simp [build_access_point, ht, hp, hv, jEqStr]⟩
  · intro su ht hp
    simp [build_access_point, ht, hp, jEqStr]
  · intro su ht hp
    exact ⟨fun m hm => by simp [build_access_point, ht, hp, hm, jEqStr],
           fun hm => by simp [build_access_point, ht, hp, hm, jEqStr]⟩

/-- Witness for C2: concrete descriptors of every kind, with and
without the optional fields. -/
theorem build_access_point_variants_witness :
    (build_access_point [("type", .str "port"), ("port_uuid", .str "p1"),
        ("vlan", .num 100)] =
      some [("type", .str "COLO"), ("port", .obj [("uuid", .str "p1")]),
        ("linkProtocol", .obj [("type", .str "DOT1Q"), ("vlanTag", .num 100)])]) ∧
    (build_access_point [("type", .str "port"), ("port_uuid", .str "p1")] =
      some [("type", .str "COLO"), ("port", .obj [("uuid", .str "p1")]),
        ("linkProtocol", .obj [("type", .str "UNTAGGED")])]) ∧
    (build_access_point [("type", .str "virtual_device"),
        ("virtual_device_uuid", .str "vd1"), ("vlan", .num 7)] =
      some [("type", .str "VD"), ("virtualDevice", .obj [("uuid", .str "vd1")]),
        ("interface", .obj [("type", .str "NETWORK"), ("vlanTag", .num 7)])]) ∧
    (build_access_point [("type", .str "virtual_device"),
        ("virtual_device_uuid", .str "vd1")] =
      some [("type", .str "VD"), ("virtualDevice", .obj [("uuid", .str "vd1")])]) ∧
    (build_access_point [("type", .str "service_token"),
        ("service_token_uuid", .str "st1")] =
      some [("type", .str "SERVICE_TOKEN"),
        ("serviceToken", .obj [("uuid", .str "st1")])]) ∧
    (build_access_point [("type", .str "service_profile"),
        ("service_profile_uuid", .str "sp1"), ("seller_metro_code", .str "NY")] =
      some [("type", .str "SP"),
        ("profile", .obj [("uuid", .str "sp1"), ("type", .str "L2_PROFILE")]),
        ("location", .obj [("metroCode", .str "NY")])]) ∧
    (build_access_point [("type", .str "service_profile"),
        ("service_profile_uuid", .str "sp1")] =
      some [("type", .str "SP"),
        ("profile", .obj [("uuid", .str "sp1"), ("type", .str "L2_PROFILE")])]) := by
  refine ⟨?_, ?_, ?_, ?_, ?_, ?_, ?_⟩
  · exact ((build_access_point_variants
      [("type", .str "port"), ("port_uuid", .str "p1"), ("vlan", .num 100)]).1
      (.str "p1") rfl rfl).1 (.num 100) rfl
  · exact ((build_access_point_variants
      [("type", .str "port"), ("port_uuid", .str "p1")]).1
      (.str "p1") rfl rfl).2 rfl
  · exact ((build_access_point_variants
      [("type", .str "virtual_device"), ("virtual_device_uuid", .str "vd1"),
        ("vlan", .num 7)]).2.1 (.str "vd1") rfl rfl).1 (.num 7) rfl
  · exact ((build_access_point_variants
      [("type", .str "virtual_device"), ("virtual_device_uuid", .str "vd1")]).2.1
      (.str "vd1") rfl rfl).2 rfl
  · exact (build_access_point_variants
      [("type", .str "service_token"), ("service_token_uuid", .str "st1")]).2.2.1
      (.str "st1") rfl rfl
  · exact ((build_access_point_variants
      [("type", .str "service_profile"), ("service_profile_uuid", .str "sp1"),
        ("seller_metro_code", .str "NY")]).2.2.2
      (.str "sp1") rfl rfl).1 (.str "NY") rfl
  · exact ((build_access_point_variants
      [("type", .str "service_profile"),
        ("service_profile_uuid", .str "sp1")]).2.2.2
      (.str "sp1") rfl rfl).2 rfl

/-- C8: a descriptor whose `type` value matches none of the four known
kinds makes `build_access_point` return the empty object — it neither
raises nor emits any field of the known variants. -/
theorem build_access_point_unknown_type (side : Dict) (ty : JValue)
    (ht : dget side "type" = some ty)
    (h1 : ty ≠ .str "port") (h2 : ty ≠ .str "virtual_device")
    (h3 : ty ≠ .str "service_token") (h4 : ty ≠ .str "service_profile") :
    build_access_point side = some [] := by
  have e1 : jEqStr ty "port" = false := by
    cases ty <;> simp_all [jEqStr]
  have e2 : jEqStr ty "virtual_device" = false := by
    cases ty <;> simp_all [jEqStr]
  have e3 : jEqStr ty "service_token" = false := by
    cases ty <;> simp_all [jEqStr]
  have e4 : jEqStr ty "service_profile" = false := by
    cases ty <;> simp_all [jEqStr]
  simp [build_access_point, ht, e1, e2, e3, e4]

/-- Witness for C8: an unrecognised kind (`"cloud"`) and a non-string
discriminant both yield the empty object. -/
theorem build_access_point_unknown_type_witness :
    build_access_point [("type", .str "cloud"), ("port_uuid", .str "p1")] =
      some [] ∧
    build_access_point [("type", .num 3)] = some [] := by
  constructor
  · exact build_access_point_unknown_type _ (.str "cloud") rfl
      (by simp) (by simp) (by simp) (by simp)
  · exact build_access_point_unknown_type _ (.num 3) rfl
      (by simp) (by simp) (by simp) (by simp)

/-- C4: the connection-update patch builder emits exactly one
`{op: replace, path, value}` entry per updatable field present in the
input, in the fixed order name, description, bandwidth, notifications
(independent of input field order); in particular
`{name: "a", bandwidth: 100}` yields exactly `replace /name` then
`replace /bandwidth`, in either input order. -/
theorem update_connection_payload_spec (d : Dict) :
    update_connection_payload d =
      updatableFields.filterMap (fun kp =>
        (dget d kp.1).map (fun v => replaceOp kp.2 (updatePatchValue kp.1 v))) ∧
    update_connection_payload [("name", .str "a"), ("bandwidth", .num 100)] =
      [replaceOp "/name" (.str "a"), replaceOp "/bandwidth" (.num 100)] ∧
    update_connection_payload [("bandwidth", .num 100), ("name", .str "a")] =
      [replaceOp "/name" (.str "a"), replaceOp "/bandwidth" (.num 100)] := by
  refine ⟨?_, rfl, rfl⟩
  cases h1 : dget d "name" <;> cases h2 : dget d "description" <;>
    cases h3 : dget d "bandwidth" <;> cases h4 : dget d "notifications" <;>
    simp [update_connection_payload, updatableFields, updatePatchValue,
      List.filterMap, h1, h2, h3, h4]

/-- C5: `build_connection_payload` always emits the required fields
`type`, `name`, `bandwidth`, `aSide`, `zSide` (both sides built by the
access-point builder), and each optional field — `description`,
`notifications` wrapped as `[{type: ALL, emails: ...}]`, `redundancy`,
and a `project` wrapper around `project_id` — exactly when the
corresponding input key is present: an absent input key produces no
output key at all. -/
theorem build_connection_payload_spec
    (data : Dict) (ty nm bw : JValue) (aF zF ap_a ap_z p : Dict)
    (hty : dget data "type" = some ty) (hnm : dget data "name" = some nm)
    (hbw : dget data "bandwidth" = some bw)
    (ha : dget data "a_side" = some (.obj aF))
    (hz : dget data "z_side" = some (.obj zF))
    (hpa : build_access_point aF = some ap_a)
    (hpz : build_access_point zF = some ap_z)
    (hpay : build_connection_payload data = some p) :
    dget p "type" = some ty ∧ dget p "name" = some nm ∧
      dget p "bandwidth" = some bw ∧
      dget p "aSide" = some (.obj [("accessPoint", .obj ap_a)]) ∧
      dget p "zSide" = some (.obj [("accessPoint", .obj ap_z)]) ∧
      dget p "description" = dget data "description" ∧
      dget p "notifications" = (dget data "notifications").map (fun n =>
        .arr [.obj [("type", .str "ALL"), ("emails", n)]]) ∧
      dget p "redundancy" = dget data "redundancy" ∧
      dget p "project" = (dget data "project_id").map (fun pid =>
        .obj [("projectId", pid)]) := by
  cases hd : dget data "description" <;> cases hn : dget data "notifications" <;>
    cases hr : dget data "redundancy" <;> cases hpr : dget data "project_id" <;>
  · simp [build_connection_payload, hty, hnm, hbw, ha, hz, hpa, hpz,
      jAsObj, hd, hn, hr, hpr] at hpay
    subst hpay
    simp [dget, hd, hn, hr, hpr]

/-- Witness for C5: a concrete connection request with a port a-side, a
service-profile z-side, and only `description` among the optional
fields; the payload has exactly the five required keys plus
`description`. -/
theorem build_connection_payload_spec_witness :
    dget [("type", JValue.str "EVPL_VC"), ("name", .str "X"),
        ("bandwidth", .num 50),
        ("aSide", .obj [("accessPoint", .obj
          [("type", .str "COLO"), ("port", .obj [("uuid", .str "p1")]),
           ("linkProtocol", .obj [("type", .str "DOT1Q"),
              ("vlanTag", .num 100)])])]),
        ("zSide", .obj [("accessPoint", .obj
          [("type", .str "SP"),
           ("profile", .obj [("uuid", .str "sp1"),
              ("type", .str "L2_PROFILE")]),
           ("location", .obj [("metroCode", .str "NY")])])]),
        ("description", .str "demo")] "type" = some (.str "EVPL_VC") ∧
      dget [("type", JValue.str "EVPL_VC"), ("name", .str "X"),
        ("bandwidth", .num 50),
        ("aSide", .obj [("accessPoint", .obj
          [("type", .str "COLO"), ("port", .obj [("uuid", .str "p1")]),
           ("linkProtocol", .obj [("type", .str "DOT1Q"),
              ("vlanTag", .num 100)])])]),
        ("zSide", .obj [("accessPoint", .obj
          [("type", .str "SP"),
           ("profile", .obj [("uuid", .str "sp1"),
              ("type", .str "L2_PROFILE")]),
           ("location", .obj [("metroCode", .str "NY")])])]),
        ("description", .str "demo")] "description" = dget
          [("type", JValue.str "EVPL_VC"), ("name", .str "X"),
           ("bandwidth", .num 50),
           ("a_side", .obj [("type", .str "port"), ("port_uuid", .str "p1"),
              ("vlan", .num 100)]),
           ("z_side", .obj [("type", .str "service_profile"),
              ("service_profile_uuid", .str "sp1"),
              ("seller_metro_code", .str "NY")]),
           ("description", .str "demo")] "description" := by
  have h := build_connection_payload_spec
    [("type", .str "EVPL_VC"), ("name", .str "X"), ("bandwidth", .num 50),
     ("a_side", .obj [("type", .str "port"), ("port_uuid", .str "p1"),
        ("vlan", .num 100)]),
     ("z_side", .obj [("type", .str "service_profile"),
        ("service_profile_uuid", .str "sp1"),
        ("seller_metro_code", .str "NY")]),
     ("description", .str "demo")]
    (.str "EVPL_VC") (.str "X") (.num 50)
    [("type", .str "port"), ("port_uuid", .str "p1"), ("vlan", .num 100)]
    [("type", .str "service_profile"), ("service_profile_uuid", .str "sp1"),
     ("seller_metro_code", .str "NY")]
    [("type", .str "COLO"), ("port", .obj [("uuid", .str "p1")]),
     ("linkProtocol", .obj [("type", .str "DOT1Q"), ("vlanTag", .num 100)])]
    [("type", .str "SP"),
     ("profile", .obj [("uuid", .str "sp1"), ("type", .str "L2_PROFILE")]),
     ("location", .obj [("metroCode", .str "NY")])]
    [("type", .str "EVPL_VC"), ("name", .str "X"), ("bandwidth", .num 50),
     ("aSide", .obj [("accessPoint", .obj
       [("type", .str "COLO"), ("port", .obj [("uuid", .str "p1")]),
        ("linkProtocol", .obj [("type", .str "DOT1Q"),
           ("vlanTag", .num 100)])])]),
     ("zSide", .obj [("accessPoint", .obj
       [("type", .str "SP"),
        ("profile", .obj [("uuid", .str "sp1"), ("type", .str "L2_PROFILE")]),
        ("location", .obj [("metroCode", .str "NY")])])]),
     ("description", .str "demo")]
    rfl rfl rfl rfl rfl rfl rfl rfl
  exact ⟨h.1, h.2.2.2.2.2.1⟩

/-- C6: router create/update/delete and connection stats fail with a
`NotImplementedError` before anything reaches the network — their
traces are empty, so no token fetch and no HTTP request occurs — and
the error is a not-supported signal, distinguishable from a transient
(HTTP-status or transport) failure.  The `get_connection_stats` tool
branch raises the same way without even calling the client. -/
theorem not_supported_ops_fail_fast (router_data update_data args : Dict)
    (router_id connection_id : String)
    (from_ts to_ts interval startTime endTime timeGranularity :
      Option String) :
    (create_router router_data).trace = [] ∧
    (create_router router_data).result =
      .error (.notImplemented routerNotSupportedMsg) ∧
    (update_router router_id update_data).trace = [] ∧
    (update_router router_id update_data).result =
      .error (.notImplemented routerNotSupportedMsg) ∧
    (delete_router router_id).trace = [] ∧
    (delete_router router_id).result =
      .error (.notImplemented routerNotSupportedMsg) ∧
    (get_connection_stats connection_id from_ts to_ts interval startTime
      endTime timeGranularity).trace = [] ∧
    (get_connection_stats connection_id from_ts to_ts interval startTime
      endTime timeGranularity).result =
      .error (.notImplemented statsNotSupportedMsg) ∧
    (get_connection_stats_tool args).trace = [] ∧
    (get_connection_stats_tool args).result =
      .error (.notImplemented statsToolNotSupportedMsg) ∧
    (FabricError.notImplemented routerNotSupportedMsg).isNotSupported = true ∧
    (FabricError.notImplemented routerNotSupportedMsg).isTransient = false ∧
    (FabricError.notImplemented statsNotSupportedMsg).isNotSupported = true ∧
    (FabricError.notImplemented statsNotSupportedMsg).isTransient = false := by
  exact ⟨rfl, rfl, rfl, rfl, rfl, rfl, rfl, rfl, rfl, rfl, rfl, rfl, rfl, rfl⟩

/-- C7: `get_router` issues exactly one search request — `POST
/fabric/v4/routers/search` with an equality filter on `/uuid` for the
requested id and pagination offset 0, limit 1 — and, on a successful
response, returns the first element of a non-empty `data` list, while
an empty or absent `data` list raises the not-found `ValueError`
instead of returning an empty success payload. -/
theorem get_router_spec (router_id : String) (resp : HttpOutcome) :
    (get_router router_id resp).trace =
      [.getToken, .httpRequest "POST" "/fabric/v4/routers/search"
        (some (routerSearchBody router_id))] ∧
    (∀ fs x rest, resp = .ok (.obj fs) →
      dget fs "data" = some (.arr (x :: rest)) →
      (get_router router_id resp).result = .ok x) ∧
    (∀ fs, resp = .ok (.obj fs) →
      dget fs "data" = none ∨ dget fs "data" = some (.arr []) →
      (get_router router_id resp).result = .error (.valueError
        ("Cloud Router with ID " ++ router_id ++ " not found"))) := by
  refine ⟨rfl, ?_, ?_⟩
  · intro fs x rest hresp hdata
    subst hresp
    simp [get_router, make_request, jGet, hdata]
  · intro fs hresp hdata
    subst hresp
    rcases hdata with h | h <;> simp [get_router, make_request, jGet, h]

/-- Witness for C7 at concrete inputs: a one-element `data` list yields
its element, an empty `data` list yields the not-found error, and the
issued request is the single uuid-filtered search. -/
theorem get_router_spec_witness :
    (get_router "r1" (.ok (.obj [("data",
        .arr [.obj [("uuid", .str "r1")]])]))).trace =
      [.getToken, .httpRequest "POST" "/fabric/v4/routers/search"
        (some (routerSearchBody "r1"))] ∧
    (get_router "r1" (.ok (.obj [("data",
        .arr [.obj [("uuid", .str "r1")]])]))).result =
      .ok (.obj [("uuid", .str "r1")]) ∧
    (get_router "r2" (.ok (.obj [("data", .arr [])]))).result =
      .error (.valueError "Cloud Router with ID r2 not found") := by
  refine ⟨(get_router_spec "r1" _).1, ?_, ?_⟩
  · exact (get_router_spec "r1"
      (.ok (.obj [("data", .arr [.obj [("uuid", .str "r1")]])]))).2.1
      [("data", .arr [.obj [("uuid", .str "r1")]])]
      (.obj [("uuid", .str "r1")]) [] rfl rfl
  · exact (get_router_spec "r2" (.ok (.obj [("data", .arr [])]))).2.2
      [("data", .arr [])] rfl (Or.inr rfl)

/-- C9 counterexample: the `search_connections` tool branch with no
`offset`/`limit` arguments issues a search body whose pagination object
is empty — it does not put default offset 0 and limit 20 into the
request, unlike the list operations. -/
theorem search_connections_omits_default_pagination :
    (search_connections_tool [] (.ok .null)).trace =
      [.getToken, .httpRequest "POST" "/fabric/v4/connections/search"
        (some (.obj [("filter", .obj []), ("pagination", .obj [])]))] ∧
    jGet (search_connections_filter_query []) "pagination" =
      some (.obj []) ∧
    jGet (JValue.obj []) "offset" = none ∧
    jGet (JValue.obj []) "limit" = none ∧
    search_connections_filter_query [] ≠ paginationBody 0 20 := by
  refine ⟨rfl, rfl, rfl, rfl, ?_⟩
  simp [search_connections_filter_query, paginationBody, dget]

/-- C9 (amended): the list operations (ports, connections, routers,
service profiles, service tokens) accept an offset/limit pair and use
default offset 0 and limit 20 in the request they issue when the caller
omits them; the `search_connections` tool instead omits the
offset/limit keys from the search body's pagination object when they
are absent from the arguments. -/
theorem pagination_defaults (args : Dict) (resp : HttpOutcome)
    (ho : dget args "offset" = none) (hl : dget args "limit" = none)
    (hm : dget args "metro_code" = none)
    (hs : dget args "service_type" = none)
    (hn : dget args "name" = none) :
    (list_fabric_ports_tool args resp).trace =
      [.getToken, .httpRequest "GET" "/fabric/v4/ports?offset=0&limit=20"
        none] ∧
    (list_fabric_connections_tool args resp).trace =
      [.getToken, .httpRequest "POST" "/fabric/v4/connections/search"
        (some (paginationBody 0 20))] ∧
    (list_fabric_routers_tool args resp).trace =
      [.getToken, .httpRequest "POST" "/fabric/v4/routers/search"
        (some (paginationBody 0 20))] ∧
    (list_service_tokens_tool args resp).trace =
      [.getToken, .httpRequest "GET"
        "/fabric/v4/serviceTokens?offset=0&limit=20" none] ∧
    (list_service_profiles_tool args resp).trace =
      [.getToken, .httpRequest "GET"
        "/fabric/v4/serviceProfiles?offset=0&limit=20" none] ∧
    jGet (search_connections_filter_query args) "pagination" =
      some (.obj []) := by
  refine ⟨?_, ?_, ?_, ?_, ?_, ?_⟩
  · simp [list_fabric_ports_tool, list_ports, make_request, arg_int, ho, hl]
    rfl
  · simp [list_fabric_connections_tool, list_connections, make_request,
      arg_int, ho, hl]
  · simp [list_fabric_routers_tool, list_routers, make_request, arg_int,
      ho, hl]
  · simp [list_service_tokens_tool, list_service_tokens, make_request,
      arg_int, ho, hl]
    rfl
  · simp [list_service_profiles_tool, list_service_profiles, make_request,
      arg_int, arg_str_opt, list_service_profiles_params, strTruthy,
      ho, hl, hm, hs, hn]
    rfl
  · simp [search_connections_filter_query, jGet, dget, ho, hl]

/-- Witness for C9 at an empty argument bag. -/
theorem pagination_defaults_witness :
    (list_fabric_ports_tool [] (.ok .null)).trace =
      [.getToken, .httpRequest "GET" "/fabric/v4/ports?offset=0&limit=20"
        none] ∧
    (list_fabric_connections_tool [] (.ok .null)).trace =
      [.getToken, .httpRequest "POST" "/fabric/v4/connections/search"
        (some (paginationBody 0 20))] ∧
    (list_fabric_routers_tool [] (.ok .null)).trace =
      [.getToken, .httpRequest "POST" "/fabric/v4/routers/search"
        (some (paginationBody 0 20))] ∧
    (list_service_tokens_tool [] (.ok .null)).trace =
      [.getToken, .httpRequest "GET"
        "/fabric/v4/serviceTokens?offset=0&limit=20" none] ∧
    (list_service_profiles_tool [] (.ok .null)).trace =
      [.getToken, .httpRequest "GET"
        "/fabric/v4/serviceProfiles?offset=0&limit=20" none] ∧
    jGet (search_connections_filter_query []) "pagination" =
      some (.obj []) := by
  exact pagination_defaults [] (.ok .null) rfl rfl rfl rfl rfl

/-- C10: in `list_service_profiles`, a filter argument that is present
but equal to the empty string is treated exactly as an absent one — the
builder tests truthiness, so no `filter[...]` query parameter is
appended — and with all three filters empty the query string is just
the pagination pair. -/
theorem empty_filter_treated_as_absent (offset limit : Int)
    (mc st nm : Option String) :
    (list_service_profiles_params offset limit (some "") st nm =
      list_service_profiles_params offset limit none st nm) ∧
    (list_service_profiles_params offset limit mc (some "") nm =
      list_service_profiles_params offset limit mc none nm) ∧
    (list_service_profiles_params offset limit mc st (some "") =
      list_service_profiles_params offset limit mc st none) ∧
    list_service_profiles_params 0 20 (some "") (some "") (some "") =
      "offset=0&limit=20" := by
  refine ⟨?_, ?_, ?_, ?_⟩
  · simp [list_service_profiles_params, strTruthy]
  · simp [list_service_profiles_params, strTruthy]
  · simp [list_service_profiles_params, strTruthy]
  · rfl

/-- C3: the tool router never propagates a fault: a name matching no
tool returns the literal `Unknown tool: <name>` text result; a raised
`HTTPStatusError` from the matched branch is rendered as `Error calling
<name>: <message>` with the response's status code and raw body in the
message; any other raised failure is rendered as `Error calling <name>:
<message>`; and a successful result is serialized as indented JSON
text. -/
theorem call_tool_router_spec (name : String) (outcome : OpOutcome) :
    (knownToolNames.contains name = false →
      call_tool name outcome =
        [{ type := "text", text := "Unknown tool: " ++ name }]) ∧
    (knownToolNames.contains name = true →
      (∀ r, outcome = .ok r → call_tool name outcome =
        [{ type := "text", text := json_dumps r }]) ∧
      (∀ s b, outcome = .httpStatusError s b → call_tool name outcome =
        [{ type := "text",
           text := "Error calling " ++ name ++ ": " ++
             ("HTTP Error " ++ toString s ++ ": " ++ b) }]) ∧
      (∀ m, outcome = .exc m → call_tool name outcome =
        [{ type := "text",
           text := "Error calling " ++ name ++ ": " ++ m }])) := by
  constructor
  · intro h
    simp only [call_tool, h]
    rfl
  · intro h
    refine ⟨?_, ?_, ?_⟩
    · intro r hr; subst hr; simp only [call_tool, h]; rfl
    · intro s b hsb; subst hsb; simp only [call_tool, h]; rfl
    · intro m hm; subst hm; simp only [call_tool, h]; rfl

/-- Witness for C3 at concrete invocations: an unknown name, a
successful `list_metros` result, a 404 from `get_fabric_port`, and the
generic exception raised by `create_fabric_router`. -/
theorem call_tool_router_spec_witness :
    call_tool "bogus" (.ok .null) =
      [{ type := "text", text := "Unknown tool: bogus" }] ∧
    call_tool "list_metros" (.ok (.obj [("data", .arr [])])) =
      [{ type := "text", text := json_dumps (.obj [("data", .arr [])]) }] ∧
    call_tool "get_fabric_port" (.httpStatusError 404 "not found") =
      [{ type := "text",
         text := "Error calling get_fabric_port: HTTP Error 404: not found" }] ∧
    call_tool "create_fabric_router" (.exc routerNotSupportedMsg) =
      [{ type := "text",
         text := "Error calling create_fabric_router: " ++
           routerNotSupportedMsg }] := by
  refine ⟨?_, ?_, ?_, ?_⟩
  · exact (call_tool_router_spec "bogus" (.ok .null)).1 rfl
  · exact ((call_tool_router_spec "list_metros"
      (.ok (.obj [("data", .arr [])]))).2 rfl).1 (.obj [("data", .arr [])]) rfl
  · exact ((call_tool_router_spec "get_fabric_port"
      (.httpStatusError 404 "not found")).2 rfl).2.1 404 "not found" rfl
  · exact ((call_tool_router_spec "create_fabric_router"
      (.exc routerNotSupportedMsg)).2 rfl).2.2 routerNotSupportedMsg rfl
